import Mathlib

/-!
Verification of the yuzu Nsight Aftermath GPU crash tracker
(`src/video_core/renderer_vulkan/nsight_aftermath_tracker.cpp`).

The tracker is embedded shallowly: the external collaborators (the
GFSDK_Aftermath diagnostics library, dynamic symbol resolution and the
`Common::FS` filesystem layer) are modelled as explicit oracle records whose
fields give each external call's outcome, and the filesystem is an explicit
association map from path strings to byte lists.  Every control path of the
C++ functions is reproduced in the definitions below; theorems about the
tracker follow the definitions.
-/

namespace NsightAftermath

/-- A binary blob: a list of byte values, as the raw buffers handed to the
callbacks and the contents of written files. -/
abbrev Blob := List Nat

/-- One file store: an association list from full path names to contents.
Writing an existing name replaces its contents in place; writing a new name
appends it. -/
def fsWriteFile : List (String × Blob) → String → Blob → List (String × Blob)
  | [], name, data => [(name, data)]
  | (n, b) :: rest, name, data =>
    if n = name then (n, data) :: rest
    else (n, b) :: fsWriteFile rest name data

/-- Look a file up by its exact path name. -/
def fsLookup : List (String × Blob) → String → Option Blob
  | [], _ => none
  | (n, b) :: rest, name => if n = name then some b else fsLookup rest name

/-- How many entries of the store carry the given name. -/
def countName (l : List (String × Blob)) (name : String) : Nat :=
  (l.filter (fun f => f.1 = name)).length

/-- Modelled from the spec: the filesystem surface consumed through
`Common::FS` (common/file_util is not under src/) — a set of existing
directories plus the file store. -/
structure FS where
  dirs : List String
  files : List (String × Blob)
deriving DecidableEq

/-- Write one file (creating or replacing it). -/
def FS.write (fs : FS) (name : String) (data : Blob) : FS :=
  { fs with files := fsWriteFile fs.files name data }

/-- Look one file up. -/
def FS.lookup (fs : FS) (name : String) : Option Blob :=
  fsLookup fs.files name

/-- Whether `name` lies strictly inside directory `dir` (its path continues
past `dir` and a separator). -/
def underDir (dir name : String) : Bool :=
  decide ((dir ++ "/").data <+: name.data)

/-- Modelled from the spec: `Common::FS::DeleteDirRecursively` — "recursive
delete": the directory, everything under it and every subdirectory under it
are removed. -/
def FS.deleteDirRecursively (fs : FS) (dir : String) : FS :=
  { dirs := fs.dirs.filter (fun d => !(d = dir : Bool) && !underDir dir d),
    files := fs.files.filter (fun f => !underDir dir f.1) }

/-- Modelled from the spec: `Common::FS::CreateDir` — "directory creation";
on success the directory exists afterwards. -/
def FS.createDir (fs : FS) (dir : String) : FS :=
  { fs with dirs := dir :: fs.dirs }

/-- Modelled from the spec: `Common::FS::WriteStringToFile` — "binary/text
file write returning actual bytes written (for short-write detection)".  A
successful open creates or truncates the file, so a short write leaves a
truncated file on disk ("a truncated file may physically remain on disk");
a failed open touches nothing and reports 0 bytes written. -/
def writeStringToFile (fs : FS) (openOk : Bool) (name : String) (data : Blob)
    (written : Nat) : FS × Nat :=
  if openOk then (fs.write name (data.take written), min written data.length)
  else (fs, 0)

/-- The character fmt prints for one lowercase hexadecimal digit. -/
def hexChar (n : Nat) : Char :=
  if n < 10 then Char.ofNat (48 + n) else Char.ofNat (87 + n)

/-- The `width` lowercase hexadecimal digits of `v`, most significant first,
zero padded, as printed by fmt's `{:016x}` when `width` is 16. -/
def hexChars : Nat → Nat → List Char
  | 0, _ => []
  | w + 1, v => hexChars w (v / 16) ++ [hexChar (v % 16)]

/-- Zero-padded fixed-width lowercase hexadecimal rendering. -/
def hexPad (w v : Nat) : String :=
  String.mk (hexChars w v)

/-- The four bytes of one 32-bit word in x86-64 memory order (little
endian), as `IOFile::WriteArray` puts them on disk. -/
def wordBytes (w : Nat) : Blob :=
  [w % 256, w / 256 % 256, w / 65536 % 256, w / 16777216 % 256]

/-- A SPIR-V word sequence laid out byte by byte, in its original byte
order. -/
def wordsToBytes (ws : List Nat) : Blob :=
  (ws.map wordBytes).flatten

/-- The tracker's mutable state.  Modelled from the spec for the member
initializers of the header (not under src/): `initialized` starts false and
the dump counter starts at 0. -/
structure Tracker where
  initialized : Bool
  dump_dir : String
  dump_id : Nat
deriving DecidableEq

/-- Outcome of every external step `Initialize` performs: the dynamic
library open, the resolution of each of the eight entry points, the log
directory the filesystem reports, directory creation and the callback
registration (`GFSDK_Aftermath_EnableGpuCrashDumps`). -/
structure InitEnv where
  dlOpenOk : Bool
  symDisableOk : Bool
  symEnableOk : Bool
  symGetDebugInfoIdOk : Bool
  symGetShaderHashOk : Bool
  symCreateDecoderOk : Bool
  symDestroyDecoderOk : Bool
  symGenerateJsonOk : Bool
  symGetJsonOk : Bool
  logDir : String
  createDirOk : Bool
  enableOk : Bool
deriving DecidableEq

/-- Whether all eight entry points resolve. -/
def InitEnv.symbolsOk (env : InitEnv) : Bool :=
  env.symDisableOk && env.symEnableOk && env.symGetDebugInfoIdOk &&
  env.symGetShaderHashOk && env.symCreateDecoderOk && env.symDestroyDecoderOk &&
  env.symGenerateJsonOk && env.symGetJsonOk

/-- Whether every step of `Initialize` succeeds. -/
def InitEnv.allStepsOk (env : InitEnv) : Bool :=
  env.dlOpenOk && env.symbolsOk && env.createDirOk && env.enableOk

/-- `NsightAftermathTracker::Initialize`: load the library, resolve the
eight symbols, choose `<log dir>gpucrash` as the dump directory, delete it
recursively (result ignored, as the C++ casts it to void), recreate it,
register the callbacks, and only then set `initialized`.  Returns the C++
return value together with the new tracker state and filesystem. -/
def Initialize (env : InitEnv) (t : Tracker) (fs : FS) : Bool × Tracker × FS :=
  if env.dlOpenOk = false then (false, t, fs)
  else if env.symbolsOk = false then (false, t, fs)
  else
    let dir := env.logDir ++ "gpucrash"
    let t1 : Tracker := { t with dump_dir := dir }
    let fs1 := fs.deleteDirRecursively dir
    if env.createDirOk = false then (false, t1, fs1)
    else
      let fs2 := fs1.createDir dir
      if env.enableOk = false then (false, t1, fs2)
      else (true, { t1 with initialized := true }, fs2)

/-- Outcome of the external steps of `SaveShader`: the SPIR-V hash call
(`GFSDK_Aftermath_GetShaderHashSpirv`, yielding a 64-bit hash), the file
open, and how many 32-bit words `IOFile::WriteArray` actually writes. -/
structure ShaderEnv where
  hashOk : Bool
  hash : Nat
  openOk : Bool
  wordsWritten : Nat
deriving DecidableEq

/-- The file name `SaveShader` formats: `{dump_dir}/source_{:016x}.spv`. -/
def shaderFileName (dir : String) (hash : Nat) : String :=
  dir ++ "/source_" ++ hexPad 16 hash ++ ".spv"

/-- `NsightAftermathTracker::SaveShader`: no-op unless initialized; hash the
module (failure logs and returns); open `source_<hash>.spv` for binary write
(failure logs and returns; a successful open truncates the file); write the
words, a short write logging but leaving the truncated file. -/
def SaveShader (env : ShaderEnv) (spirv : List Nat) (t : Tracker) (fs : FS) : FS :=
  if t.initialized = false then fs
  else if env.hashOk = false then fs
  else if env.openOk = false then fs
  else fs.write (shaderFileName t.dump_dir env.hash)
    (wordsToBytes (spirv.take env.wordsWritten))

/-- Outcome of the external steps of `OnGpuCrashDumpCallback`: decoder
creation, JSON size generation, JSON retrieval (with the JSON bytes the
library fills into the size-`jsonSize` buffer), and for each of the two
`WriteStringToFile` calls whether the open succeeds and how many bytes get
written. -/
structure CrashEnv where
  createDecoderOk : Bool
  generateJsonOk : Bool
  jsonSize : Nat
  getJsonOk : Bool
  json : Blob
  rawOpenOk : Bool
  rawWritten : Nat
  jsonOpenOk : Bool
  jsonWritten : Nat
deriving DecidableEq

/-- The buffer `GetJSON` filled: exactly `jsonSize` bytes, taken from the
library's output (the `std::vector<char> json(json_size)` of the source). -/
def CrashEnv.jsonBuf (env : CrashEnv) : Blob :=
  (env.json ++ List.replicate env.jsonSize 0).take env.jsonSize

/-- The base name of the dump with sequence number `id`:
`crash.nv-gpudmp` for 0, `crash_<id>.nv-gpudmp` otherwise. -/
def crashBaseName (dir : String) (id : Nat) : String :=
  if id = 0 then dir ++ "/crash.nv-gpudmp"
  else dir ++ "/crash_" ++ toString id ++ ".nv-gpudmp"

/-- What one crash-dump callback invocation did: whether the decoder was
created, whether it was destroyed again, and the sequence number and base
name assigned in the naming step, when that step was reached. -/
structure CrashResult where
  decoderCreated : Bool
  decoderReleased : Bool
  assigned : Option (Nat × String)
deriving DecidableEq

/-- Whether the invocation gets past the three decoding steps to the
read-then-increment of the dump counter. -/
def CrashEnv.reachesNaming (env : CrashEnv) : Bool :=
  env.createDecoderOk && env.generateJsonOk && env.getJsonOk

/-- `NsightAftermathTracker::OnGpuCrashDumpCallback`: create the decoder
(failure returns with nothing created), register its destruction for scope
exit, generate the JSON size, retrieve the JSON (each failure returns, the
decoder released), read-then-increment `dump_id` to pick the base name,
write the raw dump (a short write returns before the JSON file is
attempted), then write `<base>.json` (a short write only logs). -/
def OnGpuCrashDumpCallback (env : CrashEnv) (dump : Blob) (t : Tracker) (fs : FS) :
    Tracker × FS × CrashResult :=
  if env.createDecoderOk = false then (t, fs, ⟨false, false, none⟩)
  else if env.generateJsonOk = false then (t, fs, ⟨true, true, none⟩)
  else if env.getJsonOk = false then (t, fs, ⟨true, true, none⟩)
  else
    let id := t.dump_id
    let t1 : Tracker := { t with dump_id := id + 1 }
    let base := crashBaseName t.dump_dir id
    let w1 := writeStringToFile fs env.rawOpenOk base dump env.rawWritten
    if w1.2 ≠ dump.length then (t1, w1.1, ⟨true, true, some (id, base)⟩)
    else
      let w2 := writeStringToFile w1.1 env.jsonOpenOk (base ++ ".json")
        env.jsonBuf env.jsonWritten
      (t1, w2.1, ⟨true, true, some (id, base)⟩)

/-- Outcome of the external steps of `OnShaderDebugInfoCallback`: the
identifier call (yielding the two 64-bit identifier words), the file open,
and how many bytes `IOFile::WriteBytes` actually writes. -/
structure DebugEnv where
  idOk : Bool
  id0 : Nat
  id1 : Nat
  openOk : Bool
  bytesWritten : Nat
deriving DecidableEq

/-- The file name the debug-info callback formats:
`{dump_dir}/shader_{:016x}{:016x}.nvdbg`. -/
def debugFileName (dir : String) (id0 id1 : Nat) : String :=
  dir ++ "/shader_" ++ hexPad 16 id0 ++ hexPad 16 id1 ++ ".nvdbg"

/-- `NsightAftermathTracker::OnShaderDebugInfoCallback`: compute the
identifier (failure logs and returns), open `shader_<id>.nvdbg` for binary
write (failure logs and returns; a successful open truncates), write the
bytes, a short write logging but leaving the truncated file. -/
def OnShaderDebugInfoCallback (env : DebugEnv) (info : Blob) (t : Tracker) (fs : FS) : FS :=
  if env.idOk = false then fs
  else if env.openOk = false then fs
  else fs.write (debugFileName t.dump_dir env.id0 env.id1)
    (info.take env.bytesWritten)

/-- One serialized mutating operation: the Tracker's single mutex makes
every interleaving of `SaveShader`, crash-dump and debug-info callbacks
equivalent to the sequence in which the threads acquired the lock. -/
inductive Op where
  | shader (env : ShaderEnv) (spirv : List Nat)
  | crash (env : CrashEnv) (dump : Blob)
  | debug (env : DebugEnv) (info : Blob)

/-- Run a lock-acquisition-ordered sequence of operations, collecting the
sequence numbers the crash-dump invocations assign, in order. -/
def runOps : List Op → Tracker → FS → Tracker × FS × List Nat
  | [], t, fs => (t, fs, [])
  | Op.shader env s :: rest, t, fs => runOps rest t (SaveShader env s t fs)
  | Op.debug env d :: rest, t, fs => runOps rest t (OnShaderDebugInfoCallback env d t fs)
  | Op.crash env d :: rest, t, fs =>
    let r := OnGpuCrashDumpCallback env d t fs
    let rr := runOps rest r.1 r.2.1
    (rr.1, rr.2.1,
      (match r.2.2.assigned with
       | some p => [p.1]
       | none => []) ++ rr.2.2)

/-- How many of the operations are crash-dump invocations that reach the
naming step. -/
def crashCount : List Op → Nat
  | [] => 0
  | Op.crash env _ :: rest => (if env.reachesNaming then 1 else 0) + crashCount rest
  | _ :: rest => crashCount rest

/-- Run a sequence of crash-dump invocations only, collecting each assigned
(sequence number, base name) pair in order. -/
def runCrashes : List (CrashEnv × Blob) → Tracker → FS → Tracker × FS × List (Nat × String)
  | [], t, fs => (t, fs, [])
  | (env, d) :: rest, t, fs =>
    let r := OnGpuCrashDumpCallback env d t fs
    let rr := runCrashes rest r.1 r.2.1
    (rr.1, rr.2.1,
      (match r.2.2.assigned with
       | some p => [p]
       | none => []) ++ rr.2.2)

/-- A fully successful crash-dump invocation: the three decoding steps and
both file writes succeed. -/
def crashAllOk (e : CrashEnv × Blob) : Prop :=
  e.1.createDecoderOk = true ∧ e.1.generateJsonOk = true ∧ e.1.getJsonOk = true ∧
  e.1.rawOpenOk = true ∧ e.2.length ≤ e.1.rawWritten ∧
  e.1.jsonOpenOk = true ∧ e.1.jsonSize ≤ e.1.jsonWritten

instance (e : CrashEnv × Blob) : Decidable (crashAllOk e) := by
  unfold crashAllOk
  infer_instance

/-!  Helper lemmas about the file store. -/

theorem fsWriteFile_cons (f : String × Blob) (rest : List (String × Blob))
    (n : String) (d : Blob) :
    fsWriteFile (f :: rest) n d =
      if f.1 = n then (f.1, d) :: rest else f :: fsWriteFile rest n d := by
  cases f
  rfl

theorem fsLookup_cons (f : String × Blob) (rest : List (String × Blob)) (m : String) :
    fsLookup (f :: rest) m = if f.1 = m then some f.2 else fsLookup rest m := by
  cases f
  rfl

theorem fsLookup_write_self (l : List (String × Blob)) (n : String) (d : Blob) :
    fsLookup (fsWriteFile l n d) n = some d := by
  induction l with
  | nil => simp [fsWriteFile, fsLookup]
  | cons f rest ih =>
    rw [fsWriteFile_cons]
    by_cases h : f.1 = n
    · simp [h, fsLookup_cons]
    · simp [h, fsLookup_cons, ih]

theorem fsLookup_write_other (l : List (String × Blob)) (n m : String) (d : Blob)
    (h : m ≠ n) : fsLookup (fsWriteFile l n d) m = fsLookup l m := by
  induction l with
  | nil => simp [fsWriteFile, fsLookup, Ne.symm h]
  | cons f rest ih =>
    obtain ⟨a, b⟩ := f
    by_cases hf : a = n
    · subst hf
      have hm : ¬ a = m := fun he => h he.symm
      simp [fsWriteFile, fsLookup, hm]
    · by_cases hm : a = m
      · simp [fsWriteFile, fsLookup, hf, hm, h]
      · simp [fsWriteFile, fsLookup, hf, hm, ih]

theorem fsWriteFile_idem (l : List (String × Blob)) (n : String) (d : Blob) :
    fsWriteFile (fsWriteFile l n d) n d = fsWriteFile l n d := by
  induction l with
  | nil => simp [fsWriteFile]
  | cons f rest ih =>
    rw [fsWriteFile_cons]
    by_cases h : f.1 = n
    · simp [h, fsWriteFile_cons]
    · simp [h, fsWriteFile_cons, ih]

theorem countName_cons (f : String × Blob) (rest : List (String × Blob)) (n : String) :
    countName (f :: rest) n = (if f.1 = n then 1 else 0) + countName rest n := by
  by_cases h : f.1 = n
  · simp [countName, List.filter, h, Nat.add_comm]
  · simp [countName, List.filter, h]

theorem countName_write_fresh (l : List (String × Blob)) (n : String) (d : Blob)
    (h : fsLookup l n = none) : countName (fsWriteFile l n d) n = 1 := by
  induction l with
  | nil => simp [fsWriteFile, countName, List.filter]
  | cons f rest ih =>
    rw [fsLookup_cons] at h
    by_cases hf : f.1 = n
    · simp [hf] at h
    · simp only [hf, if_false] at h
      rw [fsWriteFile_cons]
      simp only [hf, if_false]
      rw [countName_cons]
      simp [hf, ih h]

theorem countName_write_present (l : List (String × Blob)) (n : String) (d b : Blob)
    (h : fsLookup l n = some b) : countName (fsWriteFile l n d) n = countName l n := by
  induction l generalizing b with
  | nil => simp [fsLookup] at h
  | cons f rest ih =>
    rw [fsLookup_cons] at h
    rw [fsWriteFile_cons]
    by_cases hf : f.1 = n
    · rw [if_pos hf, countName_cons, countName_cons]
    · rw [if_neg hf]
      simp only [hf, if_false] at h
      rw [countName_cons, countName_cons]
      simp [hf, ih b h]

/-!  Helper lemmas about hexadecimal rendering. -/

theorem hexChars_length : ∀ (w v : Nat), (hexChars w v).length = w := by
  intro w
  induction w with
  | zero => intro v; simp [hexChars]
  | succ n ih => intro v; simp [hexChars, ih]

theorem hexChar_fin_inj : ∀ a b : Fin 16, hexChar a.val = hexChar b.val → a = b := by
  decide

theorem hexChar_inj {a b : Nat} (ha : a < 16) (hb : b < 16)
    (h : hexChar a = hexChar b) : a = b := by
  have := hexChar_fin_inj ⟨a, ha⟩ ⟨b, hb⟩ h
  exact congrArg Fin.val this

theorem hexChars_inj : ∀ (w : Nat) {v1 v2 : Nat}, v1 < 16 ^ w → v2 < 16 ^ w →
    hexChars w v1 = hexChars w v2 → v1 = v2 := by
  intro w
  induction w with
  | zero =>
    intro v1 v2 h1 h2 _
    simp [pow_zero] at h1 h2
    omega
  | succ n ih =>
    intro v1 v2 h1 h2 h
    simp only [hexChars] at h
    have hl : (hexChars n (v1 / 16)).length = (hexChars n (v2 / 16)).length := by
      simp [hexChars_length]
    obtain ⟨h3, h4⟩ := List.append_inj h hl
    have hb1 : v1 / 16 < 16 ^ n := by
      rw [Nat.div_lt_iff_lt_mul (by norm_num)]
      calc v1 < 16 ^ (n + 1) := h1
        _ = 16 ^ n * 16 := by ring
    have hb2 : v2 / 16 < 16 ^ n := by
      rw [Nat.div_lt_iff_lt_mul (by norm_num)]
      calc v2 < 16 ^ (n + 1) := h2
        _ = 16 ^ n * 16 := by ring
    have hdiv : v1 / 16 = v2 / 16 := ih hb1 hb2 h3
    have hmods : hexChar (v1 % 16) = hexChar (v2 % 16) := by
      simpa using h4
    have hmod : v1 % 16 = v2 % 16 :=
      hexChar_inj (Nat.mod_lt _ (by norm_num)) (Nat.mod_lt _ (by norm_num)) hmods
    omega

theorem hexPad_inj {w v1 v2 : Nat} (h1 : v1 < 16 ^ w) (h2 : v2 < 16 ^ w)
    (h : hexPad w v1 = hexPad w v2) : v1 = v2 := by
  apply hexChars_inj w h1 h2
  injection h

theorem hexPad_data_length (w v : Nat) : (hexPad w v).data.length = w := by
  simp [hexPad, hexChars_length]

theorem hexPad_length (w v : Nat) : (hexPad w v).length = w :=
  hexPad_data_length w v

/-!  Helper lemmas about string-built path names. -/

theorem str_data_append (s t : String) : (s ++ t).data = s.data ++ t.data := rfl

theorem append_suffix_ne (s t : String) (h : t.data ≠ []) : s ≠ s ++ t := by
  intro he
  have : s.data.length = s.data.length + t.data.length := by
    conv_lhs => rw [he]
    simp [str_data_append]
  have : t.data.length = 0 := by omega
  exact h (List.length_eq_zero.mp this)

theorem shaderFileName_inj (dir : String) {h1 h2 : Nat}
    (hb1 : h1 < 16 ^ 16) (hb2 : h2 < 16 ^ 16)
    (hne : h1 ≠ h2) : shaderFileName dir h1 ≠ shaderFileName dir h2 := by
  intro he
  apply hne
  apply hexPad_inj hb1 hb2
  have hd : (dir ++ "/source_").data ++ (hexPad 16 h1).data ++ (".spv" : String).data
      = (dir ++ "/source_").data ++ (hexPad 16 h2).data ++ (".spv" : String).data := by
    have := congrArg String.data he
    simpa [shaderFileName, str_data_append, List.append_assoc] using this
  have hmid := List.append_cancel_right hd
  have hhex := List.append_cancel_left hmid
  cases hp1 : hexPad 16 h1
  cases hp2 : hexPad 16 h2
  simp [hp1, hp2] at hhex
  simp [hp1, hp2, hhex]

theorem debugFileName_inj (dir : String) {a1 b1 a2 b2 : Nat}
    (ha1 : a1 < 16 ^ 16) (hb1 : b1 < 16 ^ 16) (ha2 : a2 < 16 ^ 16) (hb2 : b2 < 16 ^ 16)
    (hne : a1 ≠ a2 ∨ b1 ≠ b2) :
    debugFileName dir a1 b1 ≠ debugFileName dir a2 b2 := by
  intro he
  have hd : ((dir ++ "/shader_").data ++ (hexPad 16 a1).data) ++ (hexPad 16 b1).data
        ++ (".nvdbg" : String).data
      = ((dir ++ "/shader_").data ++ (hexPad 16 a2).data) ++ (hexPad 16 b2).data
        ++ (".nvdbg" : String).data := by
    have := congrArg String.data he
    simpa [debugFileName, str_data_append, List.append_assoc] using this
  have hmid := List.append_cancel_right hd
  have hlen : ((dir ++ "/shader_").data ++ (hexPad 16 a1).data).length
      = ((dir ++ "/shader_").data ++ (hexPad 16 a2).data).length := by
    simp [hexPad_data_length, hexPad_length]
  obtain ⟨hfirst, hsecond⟩ := List.append_inj hmid hlen
  have hfirst2 := List.append_cancel_left hfirst
  have ha : a1 = a2 := by
    apply hexPad_inj ha1 ha2
    cases hp1 : hexPad 16 a1
    cases hp2 : hexPad 16 a2
    simp [hp1, hp2] at hfirst2
    simp [hfirst2]
  have hb : b1 = b2 := by
    apply hexPad_inj hb1 hb2
    cases hp1 : hexPad 16 b1
    cases hp2 : hexPad 16 b2
    simp [hp1, hp2] at hsecond
    simp [hsecond]
  rcases hne with h | h
  · exact h ha
  · exact h hb

/-!  Shape lemmas for the crash-dump callback. -/

theorem crash_tracker_eq (env : CrashEnv) (dump : Blob) (t : Tracker) (fs : FS) :
    (OnGpuCrashDumpCallback env dump t fs).1 =
      if env.reachesNaming then { t with dump_id := t.dump_id + 1 } else t := by
  unfold OnGpuCrashDumpCallback CrashEnv.reachesNaming
  cases hc : env.createDecoderOk <;> cases hg : env.generateJsonOk <;>
    cases hj : env.getJsonOk <;> simp
  split <;> rfl

theorem crash_result_eq (env : CrashEnv) (dump : Blob) (t : Tracker) (fs : FS) :
    (OnGpuCrashDumpCallback env dump t fs).2.2 =
      ⟨env.createDecoderOk, env.createDecoderOk,
        if env.reachesNaming then
          some (t.dump_id, crashBaseName t.dump_dir t.dump_id)
        else none⟩ := by
  unfold OnGpuCrashDumpCallback CrashEnv.reachesNaming
  cases hc : env.createDecoderOk <;> cases hg : env.generateJsonOk <;>
    cases hj : env.getJsonOk <;> simp
  split <;> rfl

theorem crash_fs_unchanged (env : CrashEnv) (dump : Blob) (t : Tracker) (fs : FS)
    (h : env.reachesNaming = false) :
    (OnGpuCrashDumpCallback env dump t fs).2.1 = fs := by
  unfold OnGpuCrashDumpCallback
  unfold CrashEnv.reachesNaming at h
  cases hc : env.createDecoderOk <;> cases hg : env.generateJsonOk <;>
    cases hj : env.getJsonOk <;> simp_all

/-!  Shifted-range lemmas for the sequence-number inductions. -/

theorem range_shift_add (n c : Nat) :
    (List.range (c + 1)).map (fun k => n + k)
      = n :: (List.range c).map (fun k => n + 1 + k) := by
  rw [List.range_succ_eq_map]
  simp [List.map_map, Function.comp]
  intro a _
  omega

theorem range_shift_pair (dir : String) (n c : Nat) :
    (List.range (c + 1)).map (fun k => (n + k, crashBaseName dir (n + k)))
      = (n, crashBaseName dir n)
        :: (List.range c).map (fun k => (n + 1 + k, crashBaseName dir (n + 1 + k))) := by
  rw [List.range_succ_eq_map]
  simp only [List.map_map, List.map_cons, Function.comp, Nat.add_zero]
  congr 1
  apply List.map_congr_left
  intro a _
  simp only [Function.comp_apply]
  have : n + (a + 1) = n + 1 + a := by omega
  rw [this]

/-- Generalized induction for `runOps`: from any tracker, the assigned
sequence numbers are consecutive starting at the current dump counter, and
the counter advances by exactly the number of invocations that reached the
naming step. -/
theorem runOps_spec : ∀ (ops : List Op) (t : Tracker) (fs : FS),
    (runOps ops t fs).2.2 = (List.range (crashCount ops)).map (fun k => t.dump_id + k) ∧
    (runOps ops t fs).1.dump_id = t.dump_id + crashCount ops := by
  intro ops
  induction ops with
  | nil => intro t fs; simp [runOps, crashCount]
  | cons op rest ih =>
    intro t fs
    cases op with
    | shader env s => simpa [runOps, crashCount] using ih t (SaveShader env s t fs)
    | debug env d => simpa [runOps, crashCount] using ih t (OnShaderDebugInfoCallback env d t fs)
    | crash env d =>
      have ht := crash_tracker_eq env d t fs
      have hr := crash_result_eq env d t fs
      obtain ⟨ih1, ih2⟩ :=
        ih (OnGpuCrashDumpCallback env d t fs).1 (OnGpuCrashDumpCallback env d t fs).2.1
      have hstep2 : (runOps (Op.crash env d :: rest) t fs).2.2
          = (match (OnGpuCrashDumpCallback env d t fs).2.2.assigned with
             | some p => [p.1]
             | none => [])
            ++ (runOps rest (OnGpuCrashDumpCallback env d t fs).1
                  (OnGpuCrashDumpCallback env d t fs).2.1).2.2 := rfl
      have hstep1 : (runOps (Op.crash env d :: rest) t fs).1
          = (runOps rest (OnGpuCrashDumpCallback env d t fs).1
              (OnGpuCrashDumpCallback env d t fs).2.1).1 := rfl
      by_cases hn : env.reachesNaming
      · rw [hn, if_pos rfl] at ht
        have hid : (OnGpuCrashDumpCallback env d t fs).1.dump_id = t.dump_id + 1 := by
          rw [ht]
        have hr' : (OnGpuCrashDumpCallback env d t fs).2.2.assigned
            = some (t.dump_id, crashBaseName t.dump_dir t.dump_id) := by
          rw [hr]
          simp [hn]
        have hcc : crashCount (Op.crash env d :: rest) = crashCount rest + 1 := by
          simp [crashCount, hn, Nat.add_comm]
        constructor
        · rw [hstep2, hr', ih1, hid, hcc, range_shift_add]
          simp
        · rw [hstep1, ih2, hid, hcc]
          omega
      · have hnf : env.reachesNaming = false := by
          cases h : env.reachesNaming
          · rfl
          · exact absurd h hn
        rw [hnf] at ht hr
        simp only [if_neg Bool.false_ne_true] at ht hr
        have hr' : (OnGpuCrashDumpCallback env d t fs).2.2.assigned = none := by
          rw [hr]
        have hcc : crashCount (Op.crash env d :: rest) = crashCount rest := by
          simp [crashCount, hnf]
        constructor
        · rw [hstep2, hr', ih1, ht, hcc]
          simp
        · rw [hstep1, ih2, ht, hcc]

/-- Generalized induction for `runCrashes` when every invocation passes the
three decoding steps: the assigned (sequence number, base name) pairs are
consecutive from the current counter, named in the tracker's dump
directory. -/
theorem runCrashes_spec : ∀ (l : List (CrashEnv × Blob)) (t : Tracker) (fs : FS),
    (∀ e ∈ l, e.1.reachesNaming = true) →
    (runCrashes l t fs).2.2 = (List.range l.length).map
      (fun k => (t.dump_id + k, crashBaseName t.dump_dir (t.dump_id + k))) ∧
    (runCrashes l t fs).1.dump_id = t.dump_id + l.length := by
  intro l
  induction l with
  | nil => intro t fs _; simp [runCrashes]
  | cons e rest ih =>
    intro t fs hall
    have he : e.1.reachesNaming = true := hall e (List.mem_cons_self e rest)
    have hrest : ∀ x ∈ rest, x.1.reachesNaming = true :=
      fun x hx => hall x (List.mem_cons_of_mem e hx)
    have ht := crash_tracker_eq e.1 e.2 t fs
    have hr := crash_result_eq e.1 e.2 t fs
    rw [he, if_pos rfl] at ht
    obtain ⟨ih1, ih2⟩ :=
      ih (OnGpuCrashDumpCallback e.1 e.2 t fs).1 (OnGpuCrashDumpCallback e.1 e.2 t fs).2.1 hrest
    have hid : (OnGpuCrashDumpCallback e.1 e.2 t fs).1.dump_id = t.dump_id + 1 := by
      rw [ht]
    have hdir : (OnGpuCrashDumpCallback e.1 e.2 t fs).1.dump_dir = t.dump_dir := by
      rw [ht]
    constructor
    · show (runCrashes (e :: rest) t fs).2.2 = _
      have hstep : (runCrashes (e :: rest) t fs).2.2
          = (t.dump_id, crashBaseName t.dump_dir t.dump_id)
            :: (runCrashes rest (OnGpuCrashDumpCallback e.1 e.2 t fs).1
                  (OnGpuCrashDumpCallback e.1 e.2 t fs).2.1).2.2 := by
        cases e
        simp [runCrashes, hr, he]
      rw [hstep, ih1, hid, hdir]
      rw [show (e :: rest).length = rest.length + 1 from rfl, range_shift_pair]
    · have hstep : (runCrashes (e :: rest) t fs).1
          = (runCrashes rest (OnGpuCrashDumpCallback e.1 e.2 t fs).1
              (OnGpuCrashDumpCallback e.1 e.2 t fs).2.1).1 := by
        cases e
        simp [runCrashes]
      rw [hstep, ih2, hid, List.length_cons]
      omega

/-- The return value of `Initialize` equals the conjunction of every
step's success flag. -/
theorem Initialize_result (env : InitEnv) (t : Tracker) (fs : FS) :
    (Initialize env t fs).1 = env.allStepsOk := by
  cases h1 : env.dlOpenOk <;> cases h2 : env.symbolsOk <;>
    cases h3 : env.createDirOk <;> cases h4 : env.enableOk <;>
    simp [Initialize, InitEnv.allStepsOk, h1, h2, h3, h4]

/-- A directory never lies strictly under itself. -/
theorem underDir_self (dir : String) : underDir dir dir = false := by
  unfold underDir
  simp only [decide_eq_false_iff_not]
  intro hp
  have hle := hp.length_le
  rw [str_data_append] at hle
  rw [List.length_append] at hle
  have : ("/" : String).data.length = 1 := rfl
  omega

/-- The filesystem a crash-dump invocation that reaches the naming step
leaves behind: the raw-dump write, then, when its returned count matches
the dump size, the JSON write. -/
theorem crash_fs_eq (env : CrashEnv) (dump : Blob) (t : Tracker) (fs : FS)
    (hc : env.createDecoderOk = true) (hg : env.generateJsonOk = true)
    (hj : env.getJsonOk = true) :
    (OnGpuCrashDumpCallback env dump t fs).2.1 =
      if (writeStringToFile fs env.rawOpenOk (crashBaseName t.dump_dir t.dump_id)
            dump env.rawWritten).2 ≠ dump.length
      then (writeStringToFile fs env.rawOpenOk (crashBaseName t.dump_dir t.dump_id)
            dump env.rawWritten).1
      else (writeStringToFile
            (writeStringToFile fs env.rawOpenOk (crashBaseName t.dump_dir t.dump_id)
              dump env.rawWritten).1
            env.jsonOpenOk (crashBaseName t.dump_dir t.dump_id ++ ".json")
            env.jsonBuf env.jsonWritten).1 := by
  unfold OnGpuCrashDumpCallback
  simp only [hc, hg, hj, Bool.true_eq_false, if_false]
  split <;> rfl

/-- The count a modelled `WriteStringToFile` returns. -/
theorem writeStringToFile_count (fs : FS) (o : Bool) (n : String) (d : Blob) (w : Nat) :
    (writeStringToFile fs o n d w).2 = if o then min w d.length else 0 := by
  unfold writeStringToFile
  split <;> rfl

/-!  Claim theorems. -/

/-- C9: over any lock-acquisition-ordered sequence of mutating operations
(shader saves, crash-dump and debug-info callbacks, each an atomic critical
section under the tracker's single mutex) starting from a fresh dump
counter, the assigned crash-dump sequence numbers are exactly
`0, 1, …, k-1` in order: distinct, strictly increasing and gapless. -/
theorem concurrent_sequence_numbers (b : Bool) (dir : String) (ops : List Op) (fs : FS) :
    (runOps ops ⟨b, dir, 0⟩ fs).2.2
      = List.range ((runOps ops ⟨b, dir, 0⟩ fs).2.2).length := by
  obtain ⟨h1, _⟩ := runOps_spec ops ⟨b, dir, 0⟩ fs
  rw [h1]
  simp

/-- C10: a crash-dump invocation moves the dump counter exactly when it
reaches the naming step: decoder-creation, JSON-size-generation and
JSON-retrieval failures leave the counter unchanged (no sequence number is
consumed), and an invocation that passes all three advances it by one. -/
theorem failed_crash_consumes_no_sequence (env : CrashEnv) (dump : Blob)
    (t : Tracker) (fs : FS) :
    (env.createDecoderOk = false ∨ env.generateJsonOk = false ∨ env.getJsonOk = false →
      (OnGpuCrashDumpCallback env dump t fs).1.dump_id = t.dump_id)
    ∧ (env.createDecoderOk = true → env.generateJsonOk = true → env.getJsonOk = true →
      (OnGpuCrashDumpCallback env dump t fs).1.dump_id = t.dump_id + 1) := by
  constructor
  · intro hf
    have hnf : env.reachesNaming = false := by
      rcases hf with h | h | h <;> simp [CrashEnv.reachesNaming, h]
    rw [crash_tracker_eq, hnf, if_neg Bool.false_ne_true]
  · intro h1 h2 h3
    have hn : env.reachesNaming = true := by
      simp [CrashEnv.reachesNaming, h1, h2, h3]
    rw [crash_tracker_eq, hn, if_pos rfl]

/-- Witness for C10 at a concrete failing input: a JSON-retrieval failure
leaves the counter at its old value 7. -/
theorem failed_crash_consumes_no_sequence_witness :
    ((⟨true, true, 4, false, [], true, 0, true, 0⟩ : CrashEnv).getJsonOk = false)
    ∧ (OnGpuCrashDumpCallback ⟨true, true, 4, false, [], true, 0, true, 0⟩ [1, 2]
        ⟨true, "d", 7⟩ ⟨[], []⟩).1.dump_id = 7 :=
  ⟨rfl, (failed_crash_consumes_no_sequence _ [1, 2] ⟨true, "d", 7⟩ ⟨[], []⟩).1
    (Or.inr (Or.inr rfl))⟩

/-- C2: if decoder creation succeeds but JSON size generation or JSON
retrieval fails, the invocation returns with the tracker and the filesystem
untouched (no `.nv-gpudmp` and no `.json` file written) and the decoder
released; and on every invocation whatsoever, a created decoder is released
by scope exit. -/
theorem crash_json_failure_no_artifact (env : CrashEnv) (dump : Blob)
    (t : Tracker) (fs : FS) (hc : env.createDecoderOk = true)
    (hf : env.generateJsonOk = false ∨ env.getJsonOk = false) :
    OnGpuCrashDumpCallback env dump t fs = (t, fs, ⟨true, true, none⟩)
    ∧ ∀ (env2 : CrashEnv) (d2 : Blob) (t2 : Tracker) (fs2 : FS),
        (OnGpuCrashDumpCallback env2 d2 t2 fs2).2.2.decoderCreated = true →
        (OnGpuCrashDumpCallback env2 d2 t2 fs2).2.2.decoderReleased = true := by
  constructor
  · rcases hf with h | h
    · unfold OnGpuCrashDumpCallback
      simp [hc, h]
    · cases hg : env.generateJsonOk
      · unfold OnGpuCrashDumpCallback
        simp [hc, hg]
      · unfold OnGpuCrashDumpCallback
        simp [hc, hg, h]
  · intro env2 d2 t2 fs2 hcreated
    have h22 := crash_result_eq env2 d2 t2 fs2
    rw [h22] at hcreated
    rw [h22]
    simpa using hcreated

/-- Witness for C2 at a concrete input: decoder creation succeeds, JSON
generation fails, and the whole state is returned unchanged with the
decoder created and released. -/
theorem crash_json_failure_no_artifact_witness :
    ((⟨true, false, 0, true, [], true, 0, true, 0⟩ : CrashEnv).createDecoderOk = true)
    ∧ OnGpuCrashDumpCallback ⟨true, false, 0, true, [], true, 0, true, 0⟩ [9]
        ⟨true, "d", 3⟩ ⟨[], [("d/x", [1])]⟩
      = (⟨true, "d", 3⟩, ⟨[], [("d/x", [1])]⟩, ⟨true, true, none⟩) :=
  ⟨rfl, (crash_json_failure_no_artifact _ [9] ⟨true, "d", 3⟩ ⟨[], [("d/x", [1])]⟩
    rfl (Or.inl rfl)).1⟩

/-- C4: for an initialized tracker, when hashing succeeds with hash `h` and
the open and the full write succeed, `SaveShader` creates
`source_<16-hex-digit h>.spv` holding exactly the input words in their
original byte order, the hash field zero padded to width 16. -/
theorem saveShader_writes_named_file (env : ShaderEnv) (spirv : List Nat)
    (t : Tracker) (fs : FS) (hinit : t.initialized = true) (hh : env.hashOk = true)
    (ho : env.openOk = true) (hw : env.wordsWritten = spirv.length) :
    fsLookup (SaveShader env spirv t fs).files (shaderFileName t.dump_dir env.hash)
      = some (wordsToBytes spirv)
    ∧ (hexPad 16 env.hash).length = 16 := by
  constructor
  · unfold SaveShader
    simp only [hinit, hh, ho]
    simp only [FS.write]
    rw [hw, List.take_length]
    exact fsLookup_write_self _ _ _
  · exact hexPad_length 16 env.hash

/-- Witness for C4 at the spec's example: hash `deadbeef00000000` and words
`[0x07230203, 0x00010000]` produce `source_deadbeef00000000.spv` holding
those two words in little-endian byte order. -/
theorem saveShader_writes_named_file_witness :
    shaderFileName "g" 0xdeadbeef00000000 = "g/source_deadbeef00000000.spv"
    ∧ fsLookup (SaveShader ⟨true, 0xdeadbeef00000000, true, 2⟩
        [0x07230203, 0x00010000] ⟨true, "g", 0⟩ ⟨[], []⟩).files
        (shaderFileName "g" 0xdeadbeef00000000)
      = some [0x03, 0x02, 0x23, 0x07, 0x00, 0x00, 0x01, 0x00] :=
  ⟨by decide,
    ((saveShader_writes_named_file ⟨true, 0xdeadbeef00000000, true, 2⟩
        [0x07230203, 0x00010000] ⟨true, "g", 0⟩ ⟨[], []⟩
        rfl rfl rfl rfl).1).trans (by decide)⟩

/-- C5: `Initialize` reports success exactly when the library load, all
eight symbol resolutions, directory creation and callback registration
succeed; on failure `initialized` is left as it was (so a tracker that was
Uninitialized stays Uninitialized and a retry with a good environment
succeeds from any state); on success `initialized` becomes true; and no
crash-dump invocation ever changes `initialized`, so once true it never
reverts. -/
theorem initialize_all_or_nothing (env : InitEnv) (t : Tracker) (fs : FS) :
    (Initialize env t fs).1 = env.allStepsOk
    ∧ ((Initialize env t fs).1 = false →
        (Initialize env t fs).2.1.initialized = t.initialized)
    ∧ ((Initialize env t fs).1 = true →
        (Initialize env t fs).2.1.initialized = true)
    ∧ (∀ (env2 : InitEnv) (t2 : Tracker) (fs2 : FS), env2.allStepsOk = true →
        (Initialize env2 t2 fs2).1 = true)
    ∧ (∀ (cenv : CrashEnv) (d : Blob) (fs2 : FS),
        (OnGpuCrashDumpCallback cenv d t fs2).1.initialized = t.initialized) := by
  refine ⟨Initialize_result env t fs, ?_, ?_, ?_, ?_⟩
  · cases h1 : env.dlOpenOk <;> cases h2 : env.symbolsOk <;>
      cases h3 : env.createDirOk <;> cases h4 : env.enableOk <;>
      simp [Initialize, h1, h2, h3, h4]
  · cases h1 : env.dlOpenOk <;> cases h2 : env.symbolsOk <;>
      cases h3 : env.createDirOk <;> cases h4 : env.enableOk <;>
      simp [Initialize, h1, h2, h3, h4]
  · intro env2 t2 fs2 hok
    rw [Initialize_result]
    exact hok
  · intro cenv d fs2
    rw [crash_tracker_eq]
    split <;> rfl

/-- Witness for C5 at a concrete input: with the library load failing, the
call fails and an Uninitialized tracker stays Uninitialized. -/
theorem initialize_all_or_nothing_witness :
    (Initialize ⟨false, true, true, true, true, true, true, true, true, "L/", true, true⟩
      ⟨false, "", 0⟩ ⟨[], []⟩).1 = false
    ∧ (Initialize ⟨false, true, true, true, true, true, true, true, true, "L/", true, true⟩
        ⟨false, "", 0⟩ ⟨[], []⟩).2.1.initialized = false :=
  ⟨(initialize_all_or_nothing _ ⟨false, "", 0⟩ ⟨[], []⟩).1.trans (by decide),
    ((initialize_all_or_nothing _ ⟨false, "", 0⟩ ⟨[], []⟩).2.1
      ((initialize_all_or_nothing _ ⟨false, "", 0⟩ ⟨[], []⟩).1.trans (by decide))).trans
      rfl⟩

/-- C6: after any successful `Initialize` the dump directory
`<log dir>gpucrash` exists and is empty — every file and every
subdirectory under it was removed by the recursive delete and the
recreation adds nothing inside it — and a directory-creation failure makes
`Initialize` report failure. -/
theorem initialize_dump_dir_empty (env : InitEnv) (t : Tracker) (fs : FS)
    (h : (Initialize env t fs).1 = true) :
    (env.logDir ++ "gpucrash") ∈ (Initialize env t fs).2.2.dirs
    ∧ (∀ f ∈ (Initialize env t fs).2.2.files,
        underDir (env.logDir ++ "gpucrash") f.1 = false)
    ∧ (∀ d ∈ (Initialize env t fs).2.2.dirs,
        underDir (env.logDir ++ "gpucrash") d = false)
    ∧ (∀ (env2 : InitEnv) (t2 : Tracker) (fs2 : FS), env2.createDirOk = false →
        (Initialize env2 t2 fs2).1 = false) := by
  rw [Initialize_result] at h
  have hsteps := h
  unfold InitEnv.allStepsOk at hsteps
  rw [Bool.and_eq_true, Bool.and_eq_true, Bool.and_eq_true] at hsteps
  obtain ⟨⟨⟨h1, h2⟩, h3⟩, h4⟩ := hsteps
  have hred : (Initialize env t fs).2.2
      = ((fs.deleteDirRecursively (env.logDir ++ "gpucrash")).createDir
          (env.logDir ++ "gpucrash")) := by
    unfold Initialize
    simp [h1, h2, h3, h4]
  refine ⟨?_, ?_, ?_, ?_⟩
  · rw [hred]
    exact List.mem_cons_self _ _
  · intro f hf
    rw [hred] at hf
    have hmem := (List.mem_filter.mp hf).2
    simpa using hmem
  · intro d hd
    rw [hred] at hd
    rcases List.mem_cons.mp hd with he | hmem
    · rw [he]
      exact underDir_self _
    · have := (List.mem_filter.mp hmem).2
      rw [Bool.and_eq_true] at this
      simpa using this.2
  · intro env2 t2 fs2 hcd
    rw [Initialize_result]
    unfold InitEnv.allStepsOk
    rw [hcd]
    simp

/-- Witness for C6 at a concrete input: a fully successful `Initialize`
over a filesystem holding a stale artifact inside `L/gpucrash` ends with
the directory present and nothing under it. -/
theorem initialize_dump_dir_empty_witness :
    (Initialize ⟨true, true, true, true, true, true, true, true, true, "L/", true, true⟩
      ⟨false, "", 0⟩ ⟨["L/gpucrash"], [("L/gpucrash/old.spv", [1])]⟩).1 = true
    ∧ ("L/" ++ "gpucrash")
        ∈ (Initialize ⟨true, true, true, true, true, true, true, true, true, "L/", true, true⟩
            ⟨false, "", 0⟩ ⟨["L/gpucrash"], [("L/gpucrash/old.spv", [1])]⟩).2.2.dirs :=
  ⟨by decide,
    (initialize_dump_dir_empty _ ⟨false, "", 0⟩
      ⟨["L/gpucrash"], [("L/gpucrash/old.spv", [1])]⟩ (by decide)).1⟩

/-- C1: starting from a freshly initialized tracker (dump counter 0), N
fully successful crash-dump invocations assign, by read-then-increment,
the sequence numbers 0 … N-1 — strictly increasing with no gaps — and name
the raw dumps `crash.nv-gpudmp` for sequence 0 and `crash_n.nv-gpudmp` for
every later sequence n, in order. -/
theorem crash_sequence_numbering (dir : String) (l : List (CrashEnv × Blob)) (fs : FS)
    (h : ∀ e ∈ l, crashAllOk e) :
    (runCrashes l ⟨true, dir, 0⟩ fs).2.2
      = (List.range l.length).map (fun k => (k, crashBaseName dir k))
    ∧ (runCrashes l ⟨true, dir, 0⟩ fs).1.dump_id = l.length
    ∧ crashBaseName dir 0 = dir ++ "/crash.nv-gpudmp"
    ∧ (∀ k : Nat, k ≠ 0 →
        crashBaseName dir k = dir ++ "/crash_" ++ toString k ++ ".nv-gpudmp") := by
  have hreach : ∀ e ∈ l, e.1.reachesNaming = true := by
    intro e he
    obtain ⟨h1, h2, h3, _⟩ := h e he
    simp [CrashEnv.reachesNaming, h1, h2, h3]
  obtain ⟨h1, h2⟩ := runCrashes_spec l ⟨true, dir, 0⟩ fs hreach
  refine ⟨?_, ?_, ?_, ?_⟩
  · rw [h1]
    simp
  · rw [h2]
    simp
  · simp [crashBaseName]
  · intro k hk
    simp [crashBaseName, hk]

/-- Witness for C1 at a concrete input: three successful invocations from a
fresh tracker produce, in order, sequence numbers 0, 1, 2 with names
`d/crash.nv-gpudmp`, `d/crash_1.nv-gpudmp`, `d/crash_2.nv-gpudmp`. -/
theorem crash_sequence_numbering_witness :
    (∀ e ∈ ([(⟨true, true, 1, true, [65], true, 9, true, 9⟩, [7]),
             (⟨true, true, 1, true, [65], true, 9, true, 9⟩, [8]),
             (⟨true, true, 1, true, [65], true, 9, true, 9⟩, [9])]
        : List (CrashEnv × Blob)), crashAllOk e)
    ∧ (runCrashes [(⟨true, true, 1, true, [65], true, 9, true, 9⟩, [7]),
             (⟨true, true, 1, true, [65], true, 9, true, 9⟩, [8]),
             (⟨true, true, 1, true, [65], true, 9, true, 9⟩, [9])]
        ⟨true, "d", 0⟩ ⟨[], []⟩).2.2
      = [(0, "d/crash.nv-gpudmp"), (1, "d/crash_1.nv-gpudmp"), (2, "d/crash_2.nv-gpudmp")] :=
  ⟨by decide,
    ((crash_sequence_numbering "d" _ ⟨[], []⟩ (by decide)).1).trans (by decide)⟩

/-- Counterexample to C3 as stated: with a successful raw-dump write and a
failing (short) JSON write, a `.json` file for the base name does exist on
disk — it holds the truncated JSON text — contradicting the claim that no
`.json` file for the base name exists. -/
theorem crash_json_short_write_leaves_file :
    ((⟨true, true, 2, true, [65, 66], true, 3, true, 1⟩ : CrashEnv).rawOpenOk = true
      ∧ (3 : Nat) ≤ (⟨true, true, 2, true, [65, 66], true, 3, true, 1⟩
          : CrashEnv).rawWritten
      ∧ (if (⟨true, true, 2, true, [65, 66], true, 3, true, 1⟩ : CrashEnv).jsonOpenOk
          then min (⟨true, true, 2, true, [65, 66], true, 3, true, 1⟩
              : CrashEnv).jsonWritten
            (⟨true, true, 2, true, [65, 66], true, 3, true, 1⟩ : CrashEnv).jsonBuf.length
          else 0)
        ≠ (⟨true, true, 2, true, [65, 66], true, 3, true, 1⟩ : CrashEnv).jsonBuf.length)
    ∧ fsLookup (OnGpuCrashDumpCallback ⟨true, true, 2, true, [65, 66], true, 3, true, 1⟩
        [1, 2, 3] ⟨true, "d", 0⟩ ⟨[], []⟩).2.1.files "d/crash.nv-gpudmp"
      = some [1, 2, 3]
    ∧ fsLookup (OnGpuCrashDumpCallback ⟨true, true, 2, true, [65, 66], true, 3, true, 1⟩
        [1, 2, 3] ⟨true, "d", 0⟩ ⟨[], []⟩).2.1.files "d/crash.nv-gpudmp.json"
      = some [65] := by
  decide

/-- C3 as amended: the raw dump is written before the JSON.  If the
raw-dump write check fails (a short write) the handler returns without
attempting the `.json` file, so no `.json` file for the base name exists
(assuming none existed before).  If the raw-dump write succeeds but the
JSON write fails, the `.nv-gpudmp` file is complete and present with the
full raw dump verbatim, while no complete `.json` file exists: on open
failure there is no `.json` file at all, and on a short write the `.json`
file that remains is a strict truncation of the JSON text. -/
theorem crash_raw_before_json (env : CrashEnv) (dump : Blob) (t : Tracker) (fs : FS)
    (hc : env.createDecoderOk = true) (hg : env.generateJsonOk = true)
    (hj : env.getJsonOk = true)
    (hfresh : fsLookup fs.files (crashBaseName t.dump_dir t.dump_id ++ ".json") = none) :
    ((if env.rawOpenOk then min env.rawWritten dump.length else 0) ≠ dump.length →
      fsLookup (OnGpuCrashDumpCallback env dump t fs).2.1.files
        (crashBaseName t.dump_dir t.dump_id ++ ".json") = none)
    ∧ (env.rawOpenOk = true → dump.length ≤ env.rawWritten →
      (if env.jsonOpenOk then min env.jsonWritten env.jsonBuf.length else 0)
          ≠ env.jsonBuf.length →
      fsLookup (OnGpuCrashDumpCallback env dump t fs).2.1.files
          (crashBaseName t.dump_dir t.dump_id) = some dump
      ∧ (fsLookup (OnGpuCrashDumpCallback env dump t fs).2.1.files
            (crashBaseName t.dump_dir t.dump_id ++ ".json") = none
        ∨ ∃ c : Blob,
            fsLookup (OnGpuCrashDumpCallback env dump t fs).2.1.files
              (crashBaseName t.dump_dir t.dump_id ++ ".json") = some c
            ∧ c.length < env.jsonBuf.length)) := by
  have hbj : crashBaseName t.dump_dir t.dump_id
      ≠ crashBaseName t.dump_dir t.dump_id ++ ".json" :=
    append_suffix_ne _ _ (by decide)
  have hcnt := writeStringToFile_count fs env.rawOpenOk
    (crashBaseName t.dump_dir t.dump_id) dump env.rawWritten
  constructor
  · intro hshort
    rw [crash_fs_eq env dump t fs hc hg hj]
    rw [if_pos (hcnt.trans_ne hshort)]
    cases hro : env.rawOpenOk
    · simp only [writeStringToFile, Bool.false_eq_true, if_false]
      exact hfresh
    · simp only [writeStringToFile, if_true, FS.write]
      rw [fsLookup_write_other _ _ _ _ (Ne.symm hbj)]
      exact hfresh
  · intro hro hwlen hjf
    rw [crash_fs_eq env dump t fs hc hg hj]
    have hpass : (writeStringToFile fs env.rawOpenOk
        (crashBaseName t.dump_dir t.dump_id) dump env.rawWritten).2 = dump.length := by
      rw [hcnt, hro, if_pos rfl]
      exact Nat.min_eq_right hwlen
    rw [if_neg (fun hn => hn hpass)]
    have hw1 : (writeStringToFile fs env.rawOpenOk
        (crashBaseName t.dump_dir t.dump_id) dump env.rawWritten).1
        = fs.write (crashBaseName t.dump_dir t.dump_id) dump := by
      unfold writeStringToFile
      rw [hro]
      simp only [if_pos]
      rw [List.take_of_length_le hwlen]
    rw [hw1]
    cases hjo : env.jsonOpenOk
    · simp only [writeStringToFile, Bool.false_eq_true, if_false, FS.write]
      constructor
      · exact fsLookup_write_self _ _ _
      · left
        rw [fsLookup_write_other _ _ _ _ (Ne.symm hbj)]
        exact hfresh
    · simp only [writeStringToFile, if_true, FS.write]
      constructor
      · rw [fsLookup_write_other _ _ _ _ hbj]
        exact fsLookup_write_self _ _ _
      · right
        refine ⟨env.jsonBuf.take env.jsonWritten, ?_, ?_⟩
        · exact fsLookup_write_self _ _ _
        · rw [List.length_take]
          rw [hjo, if_pos rfl] at hjf
          exact Nat.lt_of_le_of_ne (Nat.min_le_right _ _) hjf

/-- Witness for the amended C3 at a concrete input: raw write complete,
JSON write short by one byte — the dump file holds the full dump and the
`.json` file is a strict truncation. -/
theorem crash_raw_before_json_witness :
    fsLookup (OnGpuCrashDumpCallback ⟨true, true, 2, true, [65, 66], true, 9, true, 1⟩
        [5, 6] ⟨true, "w", 0⟩ ⟨[], []⟩).2.1.files "w/crash.nv-gpudmp" = some [5, 6] :=
  (((crash_raw_before_json ⟨true, true, 2, true, [65, 66], true, 9, true, 1⟩
      [5, 6] ⟨true, "w", 0⟩ ⟨[], []⟩ rfl rfl rfl (by decide)).2
    rfl (by decide) (by decide)).1).trans (by decide)

/-- C7: `SaveShader` is content-addressed and idempotent.  Repeating any
call leaves the filesystem exactly as after the first call; a successful
repeated save of the same content over a filesystem that did not yet hold
the file produces exactly one file whose bytes equal the input; and two
distinct 64-bit hashes never map to the same file name. -/
theorem saveShader_content_addressed (env : ShaderEnv) (spirv : List Nat)
    (t : Tracker) (fs : FS) :
    SaveShader env spirv t (SaveShader env spirv t fs) = SaveShader env spirv t fs
    ∧ (t.initialized = true → env.hashOk = true → env.openOk = true →
        env.wordsWritten = spirv.length →
        fsLookup fs.files (shaderFileName t.dump_dir env.hash) = none →
        countName (SaveShader env spirv t (SaveShader env spirv t fs)).files
            (shaderFileName t.dump_dir env.hash) = 1
        ∧ fsLookup (SaveShader env spirv t (SaveShader env spirv t fs)).files
            (shaderFileName t.dump_dir env.hash) = some (wordsToBytes spirv))
    ∧ (∀ h1 h2 : Nat, h1 < 16 ^ 16 → h2 < 16 ^ 16 → h1 ≠ h2 →
        shaderFileName t.dump_dir h1 ≠ shaderFileName t.dump_dir h2) := by
  refine ⟨?_, ?_, fun h1 h2 hb1 hb2 hne => shaderFileName_inj t.dump_dir hb1 hb2 hne⟩
  · cases hi : t.initialized
    · unfold SaveShader
      simp [hi]
    · cases hh : env.hashOk
      · unfold SaveShader
        simp [hi, hh]
      · cases ho : env.openOk
        · unfold SaveShader
          simp [hi, hh, ho]
        · unfold SaveShader
          simp only [hi, hh, ho, Bool.true_eq_false, if_false, FS.write]
          rw [fsWriteFile_idem]
  · intro hi hh ho hw hfresh
    unfold SaveShader
    simp only [hi, hh, ho, Bool.true_eq_false, if_false, FS.write]
    rw [hw, List.take_length]
    constructor
    · rw [fsWriteFile_idem]
      exact countName_write_fresh _ _ _ hfresh
    · rw [fsWriteFile_idem]
      exact fsLookup_write_self _ _ _

/-- Witness for C7 at a concrete input: saving the two-word module twice
yields exactly one `source_00000000000000ab.spv` file holding its bytes. -/
theorem saveShader_content_addressed_witness :
    countName (SaveShader ⟨true, 0xab, true, 2⟩ [1, 2] ⟨true, "g", 0⟩
        (SaveShader ⟨true, 0xab, true, 2⟩ [1, 2] ⟨true, "g", 0⟩ ⟨[], []⟩)).files
      (shaderFileName "g" 0xab) = 1 :=
  ((saveShader_content_addressed ⟨true, 0xab, true, 2⟩ [1, 2] ⟨true, "g", 0⟩
      ⟨[], []⟩).2.1 rfl rfl rfl rfl (by decide)).1

/-- C8: a successful debug-info invocation persists the raw bytes verbatim
to `shader_<32-hex-digit identifier>.nvdbg`; a second invocation with the
same identifier overwrites that one file, the later content winning; a
write under a different name leaves the file untouched, and distinct
identifiers always produce distinct names; identifier or open failure
leaves the filesystem untouched; and a short write leaves only a strict
truncation of the input. -/
theorem debugInfo_persists_by_identifier (env env2 : DebugEnv) (info info2 : Blob)
    (t : Tracker) (fs : FS) :
    (env.idOk = true → env.openOk = true → env.bytesWritten = info.length →
      fsLookup (OnShaderDebugInfoCallback env info t fs).files
        (debugFileName t.dump_dir env.id0 env.id1) = some info)
    ∧ (env.idOk = true → env.openOk = true →
       env2.idOk = true → env2.openOk = true → env2.bytesWritten = info2.length →
       env2.id0 = env.id0 → env2.id1 = env.id1 →
      fsLookup (OnShaderDebugInfoCallback env2 info2 t
          (OnShaderDebugInfoCallback env info t fs)).files
        (debugFileName t.dump_dir env.id0 env.id1) = some info2)
    ∧ (env2.idOk = true → env2.openOk = true →
       debugFileName t.dump_dir env2.id0 env2.id1 ≠ debugFileName t.dump_dir env.id0 env.id1 →
      fsLookup (OnShaderDebugInfoCallback env2 info2 t fs).files
          (debugFileName t.dump_dir env.id0 env.id1)
        = fsLookup fs.files (debugFileName t.dump_dir env.id0 env.id1))
    ∧ (∀ a1 b1 a2 b2 : Nat, a1 < 16 ^ 16 → b1 < 16 ^ 16 → a2 < 16 ^ 16 → b2 < 16 ^ 16 →
        a1 ≠ a2 ∨ b1 ≠ b2 →
        debugFileName t.dump_dir a1 b1 ≠ debugFileName t.dump_dir a2 b2)
    ∧ (env.idOk = false ∨ env.openOk = false →
        OnShaderDebugInfoCallback env info t fs = fs)
    ∧ (env.idOk = true → env.openOk = true → env.bytesWritten < info.length →
      fsLookup (OnShaderDebugInfoCallback env info t fs).files
          (debugFileName t.dump_dir env.id0 env.id1) = some (info.take env.bytesWritten)
      ∧ (info.take env.bytesWritten).length < info.length) := by
  refine ⟨?_, ?_, ?_, ?_, ?_, ?_⟩
  · intro hid ho hw
    unfold OnShaderDebugInfoCallback
    simp only [hid, ho, Bool.true_eq_false, if_false, FS.write]
    rw [hw, List.take_length]
    exact fsLookup_write_self _ _ _
  · intro hid ho hid2 ho2 hw2 ha hb
    unfold OnShaderDebugInfoCallback
    simp only [hid, ho, hid2, ho2, Bool.true_eq_false, if_false, FS.write]
    rw [hw2, List.take_length, ha, hb]
    exact fsLookup_write_self _ _ _
  · intro hid2 ho2 hne
    unfold OnShaderDebugInfoCallback
    simp only [hid2, ho2, Bool.true_eq_false, if_false, FS.write]
    exact fsLookup_write_other _ _ _ _ (Ne.symm hne)
  · intro a1 b1 a2 b2 ha1 hb1 ha2 hb2 hne
    exact debugFileName_inj t.dump_dir ha1 hb1 ha2 hb2 hne
  · intro hf
    rcases hf with h | h
    · unfold OnShaderDebugInfoCallback
      simp [h]
    · cases hid : env.idOk
      · unfold OnShaderDebugInfoCallback
        simp [hid]
      · unfold OnShaderDebugInfoCallback
        simp [hid, h]
  · intro hid ho hw
    unfold OnShaderDebugInfoCallback
    simp only [hid, ho, Bool.true_eq_false, if_false, FS.write]
    constructor
    · exact fsLookup_write_self _ _ _
    · rw [List.length_take]
      omega

/-- Witness for C8 at a concrete input: two calls with identifier
`(1, 2)`, the second overwriting the first, leave `shader_0…10…2.nvdbg`
holding the later bytes. -/
theorem debugInfo_persists_by_identifier_witness :
    fsLookup (OnShaderDebugInfoCallback ⟨true, 1, 2, true, 1⟩ [9]
        ⟨true, "g", 0⟩ (OnShaderDebugInfoCallback ⟨true, 1, 2, true, 2⟩ [4, 5]
          ⟨true, "g", 0⟩ ⟨[], []⟩)).files
      (debugFileName "g" 1 2) = some [9] :=
  (debugInfo_persists_by_identifier ⟨true, 1, 2, true, 2⟩ ⟨true, 1, 2, true, 1⟩
    [4, 5] [9] ⟨true, "g", 0⟩ ⟨[], []⟩).2.1 rfl rfl rfl rfl rfl rfl rfl

end NsightAftermath
